import Mathlib

/-!
# Shallow embedding of the social-burden-py pipeline

This file embeds the core of the `social_burden_tool` package:

* `load_layers.py` — the `ServiceLevels` lookup structure (its constructor,
  `get_zero_distance_effort`, `get_effort_per_foot`, `get_service_level`);
* `social_burden.py` — the `SocialBurdenCalculator` four-stage pipeline
  (`compute_pairwise_effort`, `compute_service_accessibility`,
  `compute_effort_matrix`, `compute_social_burden`, `save_results`).

Python floats are modelled by real numbers; the numpy results that can be
infinite or NaN (the final burden matrix obtained by elementwise division) are
modelled by the type `NpVal`.  Exceptions are modelled by `Except PyError`.
Methods that mutate `self` are modelled as explicit state transformers on
`CalcState`; a method that can both mutate state and raise returns the state
reached at the moment the exception propagates, paired with the outcome.

The calculator accesses its `service_levels` collaborator both through the
`ServiceLevels` getter methods (lines 41-42 of `social_burden.py`) and through
pandas indexing of the transposed service-level frame (`self.service_levels[ft]`
on line 67 and `self.service_levels.index` on line 98).  We model the
underlying CSV table once (`SLCsv`) and give each access site the pandas
semantics it has on that table.
-/

namespace SocialBurden

/-- Python exceptions that the embedded code can raise. -/
inductive PyError where
  | keyError (k : String)
  | valueError (msg : String)
  | attrError (missing : String)
deriving DecidableEq

/-- A numpy float64 value as produced by elementwise division: either a finite
real, an infinity, or NaN. -/
inductive NpVal where
  | fin (x : ℝ)
  | posInf
  | negInf
  | nan

/-- Numpy elementwise float division `x / y`: division by zero silently
produces an infinity (or NaN for 0/0) together with a runtime warning; it
never raises. -/
noncomputable def npDiv (x y : ℝ) : NpVal :=
  if y = 0 then
    (if 0 < x then .posInf else if x < 0 then .negInf else .nan)
  else .fin (x / y)

/-- One row of the service-level CSV: the "Facility Type" key column, the
"Zero Distance Effort" column, the "Effort Per Foot" column, and one value per
service category (the remaining columns). -/
structure SLRow where
  facilityType : String
  zeroDistEffort : ℝ
  effortPerFoot : ℝ
  levels : List ℝ

/-- The service-level CSV table: the category column names (all columns after
"Facility Type", "Zero Distance Effort" and "Effort Per Foot") and the rows. -/
structure SLCsv where
  categories : List String
  rows : List SLRow

/-- Pandas `set_index("Facility Type")[...].to_dict()` lookup: with duplicate
keys the last row wins. -/
def dictLookup (csv : SLCsv) (ft : String) : Option SLRow :=
  (csv.rows.filter (fun r => r.facilityType == ft)).getLast?

/-- `ServiceLevels.get_zero_distance_effort`:
`self.J_l.get(facility_type, 0.4)`. -/
def get_zero_distance_effort (csv : SLCsv) (facility_type : String) : ℝ :=
  ((dictLookup csv facility_type).map (fun r => r.zeroDistEffort)).getD 0.4

/-- `ServiceLevels.get_effort_per_foot`:
`self.M_l.get(facility_type, 0.05)`. -/
def get_effort_per_foot (csv : SLCsv) (facility_type : String) : ℝ :=
  ((dictLookup csv facility_type).map (fun r => r.effortPerFoot)).getD 0.05

/-- The `self.service_levels` attribute that `ServiceLevels.__init__` builds is
`service_levels_df.set_index("Facility Type").iloc[:, 2:].T` — the transposed
frame, whose row index is the category names and whose columns are the
facility types.  `ServiceLevels.get_service_level` evaluates
`self.service_levels.loc[facility_type, population_group]` on that transposed
frame: the first argument is looked up among the categories (the row index)
and the second among the facility types (the columns); a label absent from its
axis raises `KeyError`. -/
def get_service_level (csv : SLCsv) (facility_type population_group : String) :
    Except PyError ℝ :=
  if facility_type ∈ csv.categories then
    match dictLookup csv population_group with
    | some r => .ok (r.levels.getD (csv.categories.indexOf facility_type) 0)
    | none => .error (.keyError population_group)
  else .error (.keyError facility_type)

/-- The attribute names assigned on `self` by `ServiceLevels.__init__` before
its second statement runs.  The first statement of the constructor is
`self.sevice_levels_df = pd.read_csv(csv_path)` — note the misspelling. -/
def slAssignedAttrs : List String := ["sevice_levels_df"]

/-- `ServiceLevels.__init__`: after the first assignment, the second statement
reads `self.service_levels_df`, which is an `AttributeError` unless that
attribute was assigned. -/
def ServiceLevels_init (csv : SLCsv) : Except PyError SLCsv :=
  if "service_levels_df" ∈ slAssignedAttrs then .ok csv
  else .error (.attrError "service_levels_df")

/-- `np.radians`: degrees to radians. -/
noncomputable def radians (d : ℝ) : ℝ := d * (Real.pi / 180)

/-- sklearn `haversine_distances` on a single pair: for inputs
`x = (x1, x2)` and `y = (y1, y2)` (which sklearn interprets as
latitude-first), the angular distance is
`2 * arcsin(sqrt(sin²((x1-y1)/2) + cos x1 * cos y1 * sin²((x2-y2)/2)))`. -/
noncomputable def havDist (x1 x2 y1 y2 : ℝ) : ℝ :=
  2 * Real.arcsin (Real.sqrt (Real.sin ((x1 - y1) / 2) ^ 2 +
    Real.cos x1 * Real.cos y1 * Real.sin ((x2 - y2) / 2) ^ 2))

/-- A dense numpy matrix of floats with explicit shape. -/
structure Mat where
  rows : ℕ
  cols : ℕ
  entry : ℕ → ℕ → ℝ

/-- A dense numpy matrix whose entries may be infinite or NaN. -/
structure NpMat where
  rows : ℕ
  cols : ℕ
  entry : ℕ → ℕ → NpVal

def zeroMat : Mat := ⟨0, 0, fun _ _ => 0⟩

/-- Sum of `f 0 + f 1 + ... + f (n-1)`. -/
def sumTo (f : ℕ → ℝ) : ℕ → ℝ
  | 0 => 0
  | n + 1 => sumTo f n + f n

/-- `np.dot` on 2-d arrays: raises `ValueError` when the inner dimensions
disagree, otherwise the matrix product. -/
def matDot (A B : Mat) : Except PyError Mat :=
  if A.cols = B.rows then
    .ok ⟨A.rows, B.cols, fun n m => sumTo (fun k => A.entry n k * B.entry k m) A.cols⟩
  else .error (.valueError "shapes not aligned")

/-- A population-group row of the population GeoDataFrame: its centroid
(`CBG_longitude`, `CBG_latitude`) in degrees. -/
structure PopRow where
  lon : ℝ
  lat : ℝ

/-- A facility row of the facility GeoDataFrame: its location
(`Facility_longitude`, `Facility_latitude`) in degrees and its
"Facility Type" label. -/
structure FacRow where
  lon : ℝ
  lat : ℝ
  ftype : String

/-- The data reachable from the collaborators handed to
`SocialBurdenCalculator.__init__`: the population layer, the facility layer,
the service-level table, and the merged ability column used by
`compute_social_burden` (the values `pop_gdf[ability_column]` after
`merge_data`). -/
structure CalcInputs where
  pops : List PopRow
  facs : List FacRow
  csv : SLCsv
  ability : List ℝ

def defaultPop : PopRow := ⟨0, 0⟩

def defaultFac : FacRow := ⟨0, 0, ""⟩

/-- The mutable attributes of a `SocialBurdenCalculator`: the four lazily
cached matrices, all initialised to `None`. -/
structure CalcState where
  I_matrix : Option Mat
  G_matrix : Option Mat
  E_matrix : Option Mat
  B_matrix : Option NpMat

def initState : CalcState := ⟨none, none, none, none⟩

/-- The facility type of facility `l`. -/
def facTypeAt (inp : CalcInputs) (l : ℕ) : String := (inp.facs.getD l defaultFac).ftype

/-- The distance matrix entry `D_{n,l}`:
`haversine_distances(pop_coords, fac_coords) * 6371000`, where `pop_coords`
and `fac_coords` are the radians of the `[longitude, latitude]` columns (in
that order, as the source selects them). -/
noncomputable def D_entry (inp : CalcInputs) (n l : ℕ) : ℝ :=
  havDist (radians (inp.pops.getD n defaultPop).lon) (radians (inp.pops.getD n defaultPop).lat)
    (radians (inp.facs.getD l defaultFac).lon) (radians (inp.facs.getD l defaultFac).lat)
    * 6371000

/-- `SocialBurdenCalculator.compute_pairwise_effort`:
`self.I_matrix = J_l_values + (D_matrix * M_l_values)` with
`J_l_values[l] = get_zero_distance_effort(fac_types[l])` and
`M_l_values[l] = get_effort_per_foot(fac_types[l])`. -/
noncomputable def compute_pairwise_effort (inp : CalcInputs) (s : CalcState) : CalcState :=
  { s with I_matrix := some ⟨inp.pops.length, inp.facs.length, fun n l =>
      get_zero_distance_effort inp.csv (facTypeAt inp l)
        + D_entry inp n l * get_effort_per_foot inp.csv (facTypeAt inp l)⟩ }

/-- `SocialBurdenCalculator.compute_service_accessibility`:
computes `I` first when it is `None`, then
`self.G_matrix = np.where(self.I_matrix > 0, 1 / self.I_matrix, 0)`. -/
noncomputable def compute_service_accessibility (inp : CalcInputs) (s : CalcState) : CalcState :=
  let s1 := match s.I_matrix with
    | none => compute_pairwise_effort inp s
    | some _ => s
  let I := s1.I_matrix.getD zeroMat
  { s1 with G_matrix := some ⟨I.rows, I.cols, fun n l =>
      if 0 < I.entry n l then 1 / I.entry n l else 0⟩ }

/-- The service-level row of facility type `ft`:
`self.service_levels[ft].values` selects column `ft` of the transposed frame,
i.e. the per-category level vector of that facility type. -/
def slRowLevels (csv : SLCsv) (ft : String) : List ℝ :=
  ((dictLookup csv ft).map (fun r => r.levels)).getD []

/-- `SocialBurdenCalculator.compute_effort_matrix`:
computes `G` first when it is `None`; raises `KeyError` if some facility type
is not a column of the transposed service-level frame (line 67); builds
`S_lm = np.array([service_levels[ft].values for ft in fac_types]).T` (note the
transpose in the source) and `weighted_service = np.dot(G, S_lm)` (which
raises `ValueError` when the inner dimensions disagree); finally the
`weighted_service == 0` entries are set to NaN, `E = 1 / weighted_service`,
and `np.nan_to_num(E, nan=1e6)` turns exactly those entries into `1e6`. -/
noncomputable def compute_effort_matrix (inp : CalcInputs) (s : CalcState) :
    CalcState × Except PyError Unit :=
  let s1 := match s.G_matrix with
    | none => compute_service_accessibility inp s
    | some _ => s
  let G := s1.G_matrix.getD zeroMat
  if inp.facs.all (fun f => (dictLookup inp.csv f.ftype).isSome) then
    let S_lm : Mat := ⟨inp.csv.categories.length, inp.facs.length, fun m l =>
      (slRowLevels inp.csv (facTypeAt inp l)).getD m 0⟩
    match matDot G S_lm with
    | .error e => (s1, .error e)
    | .ok W =>
      ({ s1 with E_matrix := some ⟨W.rows, W.cols, fun n m =>
          if W.entry n m = 0 then 1000000 else 1 / W.entry n m⟩ }, .ok ())
  else (s1, .error (.keyError "facility type not in service levels"))

/-- `SocialBurdenCalculator.compute_social_burden`:
computes `E` first when it is `None` (an exception from that stage
propagates); then `self.B_matrix = self.E_matrix / ability_values` with
`ability_values` the merged ability column reshaped to a column vector —
numpy broadcasting raises `ValueError` when the number of ability values
differs from the number of rows of `E`, and division by a zero ability
silently yields an infinite (or NaN) entry.  Returns the burden matrix. -/
noncomputable def compute_social_burden (inp : CalcInputs) (s : CalcState) :
    CalcState × Except PyError NpMat :=
  let step := match s.E_matrix with
    | none => compute_effort_matrix inp s
    | some _ => (s, .ok ())
  match step with
  | (s1, .error e) => (s1, .error e)
  | (s1, .ok _) =>
    let E := s1.E_matrix.getD zeroMat
    if inp.ability.length = E.rows then
      let B : NpMat := ⟨E.rows, E.cols, fun n m => npDiv (E.entry n m) (inp.ability.getD n 0)⟩
      ({ s1 with B_matrix := some B }, .ok B)
    else (s1, .error (.valueError "operands could not be broadcast together"))

/-- `SocialBurdenCalculator.save_results`: raises
`ValueError("Social Burden has not been computed yet.")` when `B_matrix` is
`None`; otherwise writes the CSV (I/O is outside the model) and mutates
nothing. -/
def save_results (s : CalcState) : CalcState × Except PyError Unit :=
  match s.B_matrix with
  | none => (s, .error (.valueError "Social Burden has not been computed yet."))
  | some _ => (s, .ok ())

/-- Spec-side definition (§4.3 Stage 3): the weighted service availability
`W_{n,m} = Σ_l G_{n,l} * S_{l,m}`, with `S_{l,m}` the service level of
facility `l`'s type in category `m`. -/
noncomputable def specWeightedService (inp : CalcInputs) (G : Mat) (n m : ℕ) : ℝ :=
  sumTo (fun l => G.entry n l * (slRowLevels inp.csv (facTypeAt inp l)).getD m 0)
    inp.facs.length

/-- Spec-side definition (§4.2): the great-circle distance in meters between
two geographic points given as (longitude, latitude) in degrees — the
haversine formula applied latitude-first, times the Earth radius. -/
noncomputable def specHaversineMeters (lon1 lat1 lon2 lat2 : ℝ) : ℝ :=
  havDist (radians lat1) (radians lon1) (radians lat2) (radians lon2) * 6371000

/-- Entry of an optional matrix (the zero matrix for `None`). -/
def matEntry (o : Option Mat) (n m : ℕ) : ℝ := (o.getD zeroMat).entry n m

/-- Whether a pipeline call returned normally. -/
def okMat (e : Except PyError NpMat) : Bool :=
  match e with
  | .ok _ => true
  | .error _ => false

/-- Entry of a normally returned burden matrix (NaN on an exceptional run). -/
def npEntry (e : Except PyError NpMat) (n m : ℕ) : NpVal :=
  match e with
  | .ok B => B.entry n m
  | .error _ => .nan

/-! ## General lemmas about the embedded operations -/

lemma havDist_nonneg (x1 x2 y1 y2 : ℝ) : 0 ≤ havDist x1 x2 y1 y2 := by
  have h := Real.arcsin_nonneg.mpr (Real.sqrt_nonneg
    (Real.sin ((x1 - y1) / 2) ^ 2 + Real.cos x1 * Real.cos y1 * Real.sin ((x2 - y2) / 2) ^ 2))
  unfold havDist
  linarith

lemma havDist_self (a b : ℝ) : havDist a b a b = 0 := by
  simp [havDist, sub_self, zero_div, Real.sin_zero, Real.sqrt_zero, Real.arcsin_zero]

lemma D_entry_nonneg (inp : CalcInputs) (n l : ℕ) : 0 ≤ D_entry inp n l := by
  unfold D_entry
  have h := havDist_nonneg (radians (inp.pops.getD n defaultPop).lon)
    (radians (inp.pops.getD n defaultPop).lat)
    (radians (inp.facs.getD l defaultFac).lon) (radians (inp.facs.getD l defaultFac).lat)
  nlinarith

lemma radians_zero : radians 0 = 0 := by
  unfold radians; ring

lemma radians_one : radians 1 = Real.pi / 180 := by
  unfold radians; ring

lemma radians_sixty : radians 60 = Real.pi / 3 := by
  unfold radians; ring

lemma radians_ninety : radians 90 = Real.pi / 2 := by
  unfold radians; ring

/-- The one-degree-of-latitude-difference distance the pipeline computes for
points with equal first coordinates: exactly `π/180` radians of angle. -/
lemma havDist_one_degree : havDist 0 0 0 (radians 1) = Real.pi / 180 := by
  have hpi := Real.pi_pos
  rw [radians_one]
  unfold havDist
  have h1 : ((0 : ℝ) - 0) / 2 = 0 := by norm_num
  have h2 : ((0 : ℝ) - Real.pi / 180) / 2 = -(Real.pi / 360) := by ring
  rw [h1, h2, Real.sin_zero, Real.sin_neg, Real.cos_zero]
  have h3 : (0 : ℝ) ^ 2 + 1 * 1 * (-Real.sin (Real.pi / 360)) ^ 2
      = Real.sin (Real.pi / 360) ^ 2 := by ring
  rw [h3, Real.sqrt_sq (Real.sin_nonneg_of_nonneg_of_le_pi (by linarith) (by linarith)),
    Real.arcsin_sin (by linarith) (by linarith)]
  ring

end SocialBurden

namespace SocialBurden

/-! ## Claim C8 — constructing `ServiceLevels` -/

/-- Claim C8: the claim says constructing `ServiceLevels` from a well-formed
table succeeds.  The constructor's first statement assigns the misspelled
attribute `sevice_levels_df`, and its second statement reads
`service_levels_df`, so construction raises `AttributeError` for every input
table. -/
theorem serviceLevels_init_always_raises (csv : SLCsv) :
    ServiceLevels_init csv = .error (.attrError "service_levels_df") := by
  rw [ServiceLevels_init, if_neg (by decide)]

/-! ## Claim C9 — `save_results` guard -/

/-- Claim C9: `save_results` raises the `ValueError` ("NotComputedError"-class)
exactly when the Social Burden Matrix has not been computed, and returns
normally exactly when it has.  (File output itself is outside the model, as
persistence I/O is out of scope.) -/
theorem save_results_raises_iff_not_computed (s : CalcState) :
    (save_results s = (s, .error (.valueError "Social Burden has not been computed yet."))
      ↔ s.B_matrix.isSome = false)
    ∧ (save_results s = (s, .ok ()) ↔ s.B_matrix.isSome = true) := by
  cases h : s.B_matrix <;> simp [save_results, h]

/-! ## Claim C7 — Service Level Table lookup asymmetry -/

/-- A concrete well-formed service-level table: one facility type "Library",
one category "General", with J = 0.3, M = 0.02 and service level 1. -/
def c7csv : SLCsv := ⟨["General"], [⟨"Library", 0.3, 0.02, [1]⟩]⟩

/-- Claim C7: the defaults for an absent facility type hold (0.4 and 0.05
exactly, no error), and `get_service_level` does raise a `KeyError` for an
absent type — but, contrary to the claim, it also raises `KeyError` for a
present pair ("Library", "General"), because it evaluates
`.loc[facility_type, category]` on the transposed frame whose row index is
the categories. -/
theorem get_service_level_raises_on_present_pair :
    get_zero_distance_effort c7csv "School" = 0.4
    ∧ get_effort_per_foot c7csv "School" = 0.05
    ∧ get_service_level c7csv "School" "General" = .error (.keyError "School")
    ∧ get_service_level c7csv "Library" "General" = .error (.keyError "Library") := by
  refine ⟨?_, ?_, ?_, ?_⟩ <;>
    simp [get_zero_distance_effort, get_effort_per_foot, get_service_level, dictLookup, c7csv]

/-! ## Claim C6 — Stage 1 formula and lower bound -/

/-- Claim C6: `compute_pairwise_effort` fills
`I_{n,l} = J_l + D_{n,l} * M_l`, with `J_l` and `M_l` looked up from the
service-level table by facility `l`'s type, and when `M_l ≥ 0` (the distance
is non-negative by construction) every entry satisfies `I_{n,l} ≥ J_l`. -/
theorem compute_pairwise_effort_formula (inp : CalcInputs) (s : CalcState) (n l : ℕ)
    (hM : 0 ≤ get_effort_per_foot inp.csv (facTypeAt inp l)) :
    matEntry (compute_pairwise_effort inp s).I_matrix n l
      = get_zero_distance_effort inp.csv (facTypeAt inp l)
        + D_entry inp n l * get_effort_per_foot inp.csv (facTypeAt inp l)
    ∧ get_zero_distance_effort inp.csv (facTypeAt inp l)
        ≤ matEntry (compute_pairwise_effort inp s).I_matrix n l := by
  have hD := D_entry_nonneg inp n l
  have heq : matEntry (compute_pairwise_effort inp s).I_matrix n l
      = get_zero_distance_effort inp.csv (facTypeAt inp l)
        + D_entry inp n l * get_effort_per_foot inp.csv (facTypeAt inp l) := rfl
  refine ⟨heq, ?_⟩
  rw [heq]
  nlinarith [mul_nonneg hD hM]

/-- A concrete small input used to discharge hypotheses of the parametric
theorems: one population group and one facility of type "Library" at the same
location, one category with service level 1, ability 1. -/
def inpW : CalcInputs := ⟨[⟨0, 0⟩], [⟨0, 0, "Library"⟩], c7csv, [1]⟩

/-- Witness for C6 at a concrete input. -/
theorem compute_pairwise_effort_formula_witness :
    0 ≤ get_effort_per_foot inpW.csv (facTypeAt inpW 0)
    ∧ (matEntry (compute_pairwise_effort inpW initState).I_matrix 0 0
        = get_zero_distance_effort inpW.csv (facTypeAt inpW 0)
          + D_entry inpW 0 0 * get_effort_per_foot inpW.csv (facTypeAt inpW 0)
      ∧ get_zero_distance_effort inpW.csv (facTypeAt inpW 0)
        ≤ matEntry (compute_pairwise_effort inpW initState).I_matrix 0 0) :=
  ⟨by norm_num [get_effort_per_foot, dictLookup, inpW, c7csv, facTypeAt],
   compute_pairwise_effort_formula inpW initState 0 0
     (by norm_num [get_effort_per_foot, dictLookup, inpW, c7csv, facTypeAt])⟩

/-! ## Claim C5 — Stage 2 guarded division -/

/-- The calculator state after running Stage 1 then Stage 2. -/
noncomputable def stage2State (inp : CalcInputs) (s : CalcState) : CalcState :=
  compute_service_accessibility inp (compute_pairwise_effort inp s)

/-- Claim C5: after Stage 1, `compute_service_accessibility` fills
`G_{n,l} = 1/I_{n,l}` when `I_{n,l} > 0` and `0` otherwise; under the
preconditions `J_l > 0` and `M_l ≥ 0` (distance being non-negative by
construction) the zero branch is unreachable — `I_{n,l} > 0` and
`G_{n,l} = 1/I_{n,l}` — the entry lies in `[0, 1/J_l]`, and `G_{n,l} = 0`
only if `I_{n,l} = 0`. -/
theorem compute_service_accessibility_guard (inp : CalcInputs) (s : CalcState) (n l : ℕ)
    (hJ : 0 < get_zero_distance_effort inp.csv (facTypeAt inp l))
    (hM : 0 ≤ get_effort_per_foot inp.csv (facTypeAt inp l)) :
    matEntry (stage2State inp s).G_matrix n l
      = (if 0 < matEntry (stage2State inp s).I_matrix n l
          then 1 / matEntry (stage2State inp s).I_matrix n l else 0)
    ∧ 0 < matEntry (stage2State inp s).I_matrix n l
    ∧ matEntry (stage2State inp s).G_matrix n l
        = 1 / matEntry (stage2State inp s).I_matrix n l
    ∧ 0 ≤ matEntry (stage2State inp s).G_matrix n l
    ∧ matEntry (stage2State inp s).G_matrix n l
        ≤ 1 / get_zero_distance_effort inp.csv (facTypeAt inp l)
    ∧ (matEntry (stage2State inp s).G_matrix n l = 0
        → matEntry (stage2State inp s).I_matrix n l = 0) := by
  have hD := D_entry_nonneg inp n l
  have hIeq : matEntry (stage2State inp s).I_matrix n l
      = get_zero_distance_effort inp.csv (facTypeAt inp l)
        + D_entry inp n l * get_effort_per_foot inp.csv (facTypeAt inp l) := rfl
  have hGeq : matEntry (stage2State inp s).G_matrix n l
      = (if 0 < matEntry (stage2State inp s).I_matrix n l
          then 1 / matEntry (stage2State inp s).I_matrix n l else 0) := rfl
  have hJle : get_zero_distance_effort inp.csv (facTypeAt inp l)
      ≤ matEntry (stage2State inp s).I_matrix n l := by
    rw [hIeq]; nlinarith [mul_nonneg hD hM]
  have hI : 0 < matEntry (stage2State inp s).I_matrix n l := lt_of_lt_of_le hJ hJle
  have hG1 : matEntry (stage2State inp s).G_matrix n l
      = 1 / matEntry (stage2State inp s).I_matrix n l := by
    rw [hGeq, if_pos hI]
  have hGpos : 0 < matEntry (stage2State inp s).G_matrix n l := by
    rw [hG1]; exact one_div_pos.mpr hI
  refine ⟨hGeq, hI, hG1, le_of_lt hGpos, ?_, ?_⟩
  · rw [hG1]; exact one_div_le_one_div_of_le hJ hJle
  · intro h0; exact absurd h0 (ne_of_gt hGpos)

/-- Witness for C5 at a concrete input. -/
theorem compute_service_accessibility_guard_witness :
    (0 < get_zero_distance_effort inpW.csv (facTypeAt inpW 0)
      ∧ 0 ≤ get_effort_per_foot inpW.csv (facTypeAt inpW 0))
    ∧ (0 < matEntry (stage2State inpW initState).I_matrix 0 0
      ∧ matEntry (stage2State inpW initState).G_matrix 0 0
          ≤ 1 / get_zero_distance_effort inpW.csv (facTypeAt inpW 0)) :=
  ⟨⟨by norm_num [get_zero_distance_effort, dictLookup, inpW, c7csv, facTypeAt],
    by norm_num [get_effort_per_foot, dictLookup, inpW, c7csv, facTypeAt]⟩,
   ⟨(compute_service_accessibility_guard inpW initState 0 0
      (by norm_num [get_zero_distance_effort, dictLookup, inpW, c7csv, facTypeAt])
      (by norm_num [get_effort_per_foot, dictLookup, inpW, c7csv, facTypeAt])).2.1,
    (compute_service_accessibility_guard inpW initState 0 0
      (by norm_num [get_zero_distance_effort, dictLookup, inpW, c7csv, facTypeAt])
      (by norm_num [get_effort_per_foot, dictLookup, inpW, c7csv, facTypeAt])).2.2.2.2.1⟩⟩

/-! ## Claim C10 — frame property of later stages -/

lemma csa_preserves_I (inp : CalcInputs) (s : CalcState) (A : Mat)
    (h : s.I_matrix = some A) :
    (compute_service_accessibility inp s).I_matrix = some A := by
  simp [compute_service_accessibility, h]

lemma csa_E_unchanged (inp : CalcInputs) (s : CalcState) :
    (compute_service_accessibility inp s).E_matrix = s.E_matrix := by
  cases h : s.I_matrix <;> simp [compute_service_accessibility, compute_pairwise_effort, h]

lemma csa_B_unchanged (inp : CalcInputs) (s : CalcState) :
    (compute_service_accessibility inp s).B_matrix = s.B_matrix := by
  cases h : s.I_matrix <;> simp [compute_service_accessibility, compute_pairwise_effort, h]

lemma cem_preserves_I (inp : CalcInputs) (s : CalcState) (A : Mat)
    (h : s.I_matrix = some A) :
    (compute_effort_matrix inp s).1.I_matrix = some A := by
  have hcsa := csa_preserves_I inp s A h
  unfold compute_effort_matrix
  cases hG : s.G_matrix <;> simp only [hG] <;> split <;>
    first
      | (split <;> simp [hcsa, h])
      | simp [hcsa, h]

lemma cem_preserves_G (inp : CalcInputs) (s : CalcState) (A : Mat)
    (h : s.G_matrix = some A) :
    (compute_effort_matrix inp s).1.G_matrix = some A := by
  unfold compute_effort_matrix
  simp only [h]
  split <;>
    first
      | (split <;> simp [h])
      | simp [h]

lemma cem_preserves_B (inp : CalcInputs) (s : CalcState) :
    (compute_effort_matrix inp s).1.B_matrix = s.B_matrix := by
  have hcsa := csa_B_unchanged inp s
  unfold compute_effort_matrix
  cases hG : s.G_matrix <;> simp only [hG] <;> split <;>
    first
      | (split <;> simp [hcsa])
      | simp [hcsa]

lemma csb_preserves_I (inp : CalcInputs) (s : CalcState) (A : Mat)
    (h : s.I_matrix = some A) :
    (compute_social_burden inp s).1.I_matrix = some A := by
  unfold compute_social_burden
  cases hE : s.E_matrix with
  | none =>
    have hcem := cem_preserves_I inp s A h
    rcases hstep : compute_effort_matrix inp s with ⟨s1, r⟩
    rw [hstep] at hcem
    have hs1 : s1.I_matrix = some A := hcem
    cases r <;> simp only [hE, hstep] <;> [skip; split] <;> simp [hs1]
  | some E0 =>
    simp only [hE]
    split <;> simp [h]

lemma csb_preserves_G (inp : CalcInputs) (s : CalcState) (A : Mat)
    (h : s.G_matrix = some A) :
    (compute_social_burden inp s).1.G_matrix = some A := by
  unfold compute_social_burden
  cases hE : s.E_matrix with
  | none =>
    have hcem := cem_preserves_G inp s A h
    rcases hstep : compute_effort_matrix inp s with ⟨s1, r⟩
    rw [hstep] at hcem
    have hs1 : s1.G_matrix = some A := hcem
    cases r <;> simp only [hE, hstep] <;> [skip; split] <;> simp [hs1]
  | some E0 =>
    simp only [hE]
    split <;> simp [h]

lemma csb_preserves_E (inp : CalcInputs) (s : CalcState) (A : Mat)
    (h : s.E_matrix = some A) :
    (compute_social_burden inp s).1.E_matrix = some A := by
  unfold compute_social_burden
  simp only [h]
  split <;> simp [h]

/-- Claim C10: later pipeline stages never mutate an already-cached
earlier-stage matrix: `compute_service_accessibility` keeps a non-`None`
`I_matrix`, `compute_effort_matrix` keeps non-`None` `I_matrix` and
`G_matrix` (and leaves `B_matrix` alone), `compute_social_burden` keeps
non-`None` `I_matrix`, `G_matrix` and `E_matrix`, and `save_results` leaves
the whole state unchanged. -/
theorem later_stages_preserve_cached_matrices (inp : CalcInputs) (s : CalcState) :
    (∀ A, s.I_matrix = some A → (compute_service_accessibility inp s).I_matrix = some A)
    ∧ (∀ A, s.I_matrix = some A → (compute_effort_matrix inp s).1.I_matrix = some A)
    ∧ (∀ A, s.G_matrix = some A → (compute_effort_matrix inp s).1.G_matrix = some A)
    ∧ (∀ A, s.I_matrix = some A → (compute_social_burden inp s).1.I_matrix = some A)
    ∧ (∀ A, s.G_matrix = some A → (compute_social_burden inp s).1.G_matrix = some A)
    ∧ (∀ A, s.E_matrix = some A → (compute_social_burden inp s).1.E_matrix = some A)
    ∧ (save_results s).1 = s :=
  ⟨fun A h => csa_preserves_I inp s A h,
   fun A h => cem_preserves_I inp s A h,
   fun A h => cem_preserves_G inp s A h,
   fun A h => csb_preserves_I inp s A h,
   fun A h => csb_preserves_G inp s A h,
   fun A h => csb_preserves_E inp s A h,
   by cases h : s.B_matrix <;> simp [save_results, h]⟩

/-- A concrete fully cached calculator state for the C10 witness. -/
def wMat : Mat := ⟨1, 1, fun _ _ => 1⟩

def wNpMat : NpMat := ⟨1, 1, fun _ _ => .fin 1⟩

def wState : CalcState := ⟨some wMat, some wMat, some wMat, some wNpMat⟩

/-- Witness for C10 at a concrete cached state. -/
theorem later_stages_preserve_cached_matrices_witness :
    (wState.I_matrix = some wMat ∧ wState.G_matrix = some wMat
      ∧ wState.E_matrix = some wMat)
    ∧ (compute_service_accessibility inpW wState).I_matrix = some wMat
    ∧ (compute_effort_matrix inpW wState).1.I_matrix = some wMat
    ∧ (compute_effort_matrix inpW wState).1.G_matrix = some wMat
    ∧ (compute_social_burden inpW wState).1.I_matrix = some wMat
    ∧ (compute_social_burden inpW wState).1.G_matrix = some wMat
    ∧ (compute_social_burden inpW wState).1.E_matrix = some wMat
    ∧ (save_results wState).1 = wState :=
  ⟨⟨rfl, rfl, rfl⟩,
   (later_stages_preserve_cached_matrices inpW wState).1 wMat rfl,
   (later_stages_preserve_cached_matrices inpW wState).2.1 wMat rfl,
   (later_stages_preserve_cached_matrices inpW wState).2.2.1 wMat rfl,
   (later_stages_preserve_cached_matrices inpW wState).2.2.2.1 wMat rfl,
   (later_stages_preserve_cached_matrices inpW wState).2.2.2.2.1 wMat rfl,
   (later_stages_preserve_cached_matrices inpW wState).2.2.2.2.2.1 wMat rfl,
   (later_stages_preserve_cached_matrices inpW wState).2.2.2.2.2.2⟩

/-! ## Claim C4 — Distance Engine -/

/-- The distance the code computes for a population centroid at longitude 90°,
latitude 0° and a facility at longitude 90°, latitude 60°: because the source
feeds the `[longitude, latitude]` columns to sklearn's latitude-first
haversine, the first coordinates are both `π/2`, whose cosine is `0`, and the
whole haversine argument collapses to `0`. -/
lemma havDist_swapped_collapses :
    havDist (Real.pi / 2) 0 (Real.pi / 2) (Real.pi / 3) = 0 := by
  simp [havDist, sub_self, zero_div, Real.sin_zero, Real.cos_pi_div_two,
    Real.sqrt_zero, Real.arcsin_zero]

/-- The true latitude-first haversine angle for the same two points is
`π/3` (60 degrees of latitude difference along a meridian). -/
lemma havDist_lat_first_value :
    havDist 0 (Real.pi / 2) (Real.pi / 3) (Real.pi / 2) = Real.pi / 3 := by
  have hpi := Real.pi_pos
  unfold havDist
  have h1 : ((0 : ℝ) - Real.pi / 3) / 2 = -(Real.pi / 6) := by ring
  have h2 : (Real.pi / 2 - Real.pi / 2) / 2 = 0 := by ring
  rw [h1, h2, Real.sin_neg, Real.sin_zero, Real.cos_zero]
  have h3 : (-Real.sin (Real.pi / 6)) ^ 2 + 1 * Real.cos (Real.pi / 3) * 0 ^ 2
      = Real.sin (Real.pi / 6) ^ 2 := by ring
  rw [h3, Real.sqrt_sq (Real.sin_nonneg_of_nonneg_of_le_pi (by linarith) (by linarith)),
    Real.arcsin_sin (by linarith) (by linarith)]
  ring

/-- The concrete input refuting C4: one population centroid at (lon 90°,
lat 0°) and one facility at (lon 90°, lat 60°). -/
def c4inp : CalcInputs := ⟨[⟨90, 0⟩], [⟨90, 60, "Library"⟩], c7csv, []⟩

/-- Claim C4: the source passes the `[longitude, latitude]` columns to
sklearn's `haversine_distances`, which expects latitude first.  For the
distinct points (lon 90°, lat 0°) and (lon 90°, lat 60°) the computed
`D_{0,0}` is exactly 0, while the true haversine distance (the spec's
formula, latitude first) is `π/3 * 6371000` meters, which is positive.  So
`D_{n,l}` is neither the haversine distance nor zero-iff-identical. -/
theorem distance_engine_swapped_coordinates :
    D_entry c4inp 0 0 = 0
    ∧ specHaversineMeters 90 0 90 60 = Real.pi / 3 * 6371000
    ∧ 0 < specHaversineMeters 90 0 90 60
    ∧ ((90 : ℝ), (0 : ℝ)) ≠ ((90 : ℝ), (60 : ℝ)) := by
  have hpi := Real.pi_pos
  have hcode : D_entry c4inp 0 0
      = havDist (radians 90) (radians 0) (radians 90) (radians 60) * 6371000 := rfl
  have hspec : specHaversineMeters 90 0 90 60
      = havDist (radians 0) (radians 90) (radians 60) (radians 90) * 6371000 := rfl
  refine ⟨?_, ?_, ?_, ?_⟩
  · rw [hcode, radians_ninety, radians_zero, radians_sixty, havDist_swapped_collapses,
      zero_mul]
  · rw [hspec, radians_ninety, radians_zero, radians_sixty, havDist_lat_first_value]
  · rw [hspec, radians_ninety, radians_zero, radians_sixty, havDist_lat_first_value]
    positivity
  · intro h
    have h2 := congrArg Prod.snd h
    norm_num at h2

/-! ## Claim C2 — zero ability score -/

/-- The concrete input refuting C2: one population group and one facility of
type "Library" at the same location, and ability score 0. -/
def c2inp : CalcInputs := ⟨[⟨0, 0⟩], [⟨0, 0, "Library"⟩], c7csv, [0]⟩

/-- The full pipeline run on `c2inp` from a fresh calculator. -/
noncomputable def c2run : CalcState × Except PyError NpMat :=
  compute_social_burden c2inp initState

/-- Claim C2 counterexample: with ability score 0 the pipeline does not raise
any error — `compute_social_burden` returns normally — and the returned
Social Burden Matrix contains a silently produced `+Inf` entry (numpy float
division by zero warns, it does not raise). -/
theorem zero_ability_returns_silent_inf :
    okMat c2run.2 = true ∧ npEntry c2run.2 0 0 = NpVal.posInf := by
  have hD : D_entry c2inp 0 0 = 0 := by
    simp [D_entry, c2inp, radians_zero, havDist_self]
  have hI : matEntry c2run.1.I_matrix 0 0 = 0.3 := by
    have hd : matEntry c2run.1.I_matrix 0 0
        = get_zero_distance_effort c7csv "Library"
          + D_entry c2inp 0 0 * get_effort_per_foot c7csv "Library" := rfl
    rw [hd, hD]
    norm_num [get_zero_distance_effort, get_effort_per_foot, dictLookup, c7csv]
  have hIpos : 0 < matEntry c2run.1.I_matrix 0 0 := by rw [hI]; norm_num
  have hGdef : matEntry c2run.1.G_matrix 0 0
      = (if 0 < matEntry c2run.1.I_matrix 0 0
          then 1 / matEntry c2run.1.I_matrix 0 0 else 0) := rfl
  have hGpos : 0 < matEntry c2run.1.G_matrix 0 0 := by
    rw [hGdef, if_pos hIpos]; exact one_div_pos.mpr hIpos
  have hs : (slRowLevels c7csv (facTypeAt c2inp 0)).getD 0 0 = 1 := by
    simp [slRowLevels, dictLookup, c7csv, c2inp, facTypeAt]
  have hWpos : 0 < 0 + matEntry c2run.1.G_matrix 0 0
      * (slRowLevels c7csv (facTypeAt c2inp 0)).getD 0 0 := by
    rw [hs, mul_one, zero_add]; exact hGpos
  have hEdef : matEntry c2run.1.E_matrix 0 0
      = (if (0 + matEntry c2run.1.G_matrix 0 0
              * (slRowLevels c7csv (facTypeAt c2inp 0)).getD 0 0) = 0 then (1000000 : ℝ)
         else 1 / (0 + matEntry c2run.1.G_matrix 0 0
              * (slRowLevels c7csv (facTypeAt c2inp 0)).getD 0 0)) := rfl
  have hEpos : 0 < matEntry c2run.1.E_matrix 0 0 := by
    rw [hEdef, if_neg (ne_of_gt hWpos)]
    exact one_div_pos.mpr hWpos
  have hnp : npEntry c2run.2 0 0 = npDiv (matEntry c2run.1.E_matrix 0 0) 0 := rfl
  refine ⟨rfl, ?_⟩
  rw [hnp]
  simp [npDiv, hEpos]

/-- Claim C2 amended: when the Effort Matrix is available, the merged ability
column has the right length, some `A_n = 0` and the corresponding Effort
entry is positive, `compute_social_burden` returns normally (the exact
elementwise division result) and that burden entry is `+Inf` — a silent
infinity, not a `DivisionByZero`-class error. -/
theorem zero_ability_no_raise (inp : CalcInputs) (s : CalcState) (E0 : Mat) (n m : ℕ)
    (hE : s.E_matrix = some E0) (hlen : inp.ability.length = E0.rows)
    (hab : inp.ability.getD n 0 = 0) (hpos : 0 < E0.entry n m) :
    (compute_social_burden inp s).2
      = .ok ⟨E0.rows, E0.cols, fun i j => npDiv (E0.entry i j) (inp.ability.getD i 0)⟩
    ∧ npEntry (compute_social_burden inp s).2 n m = NpVal.posInf := by
  have hrun : (compute_social_burden inp s).2
      = .ok ⟨E0.rows, E0.cols, fun i j => npDiv (E0.entry i j) (inp.ability.getD i 0)⟩ := by
    unfold compute_social_burden
    simp only [hE, Option.getD_some]
    rw [if_pos hlen]
  refine ⟨hrun, ?_⟩
  have hdiv : npDiv (E0.entry n m) (inp.ability.getD n 0) = NpVal.posInf := by
    rw [hab]
    simp [npDiv, hpos]
  rw [npEntry.eq_def, hrun]
  exact hdiv

/-- Concrete data for the C2 witness: a cached 1×1 Effort Matrix with entry 1
and a single zero ability score. -/
def c2wE : Mat := ⟨1, 1, fun _ _ => 1⟩

def c2wState : CalcState := ⟨none, none, some c2wE, none⟩

def c2winp : CalcInputs := ⟨[], [], ⟨[], []⟩, [0]⟩

/-- Witness for the amended C2 at a concrete input. -/
theorem zero_ability_no_raise_witness :
    (c2wState.E_matrix = some c2wE ∧ c2winp.ability.length = c2wE.rows
      ∧ c2winp.ability.getD 0 0 = 0 ∧ 0 < c2wE.entry 0 0)
    ∧ npEntry (compute_social_burden c2winp c2wState).2 0 0 = NpVal.posInf :=
  ⟨⟨rfl, rfl, rfl, by norm_num [c2wE]⟩,
   (zero_ability_no_raise c2winp c2wState c2wE 0 0 rfl rfl rfl (by norm_num [c2wE])).2⟩

/-! ## Claim C1 — Stage 3 edge-case policy -/

/-- The concrete input refuting C1: two facility types "t1" (service levels
(0, 1)) and "t2" (service levels (0, 0)), two categories, one population
group, with `J = 1` and `M = 0` so that `I` and `G` are all ones. -/
def c1csv : SLCsv := ⟨["c1", "c2"], [⟨"t1", 1, 0, [0, 1]⟩, ⟨"t2", 1, 0, [0, 0]⟩]⟩

def c1inp : CalcInputs := ⟨[⟨0, 0⟩], [⟨0, 0, "t1"⟩, ⟨0, 0, "t2"⟩], c1csv, []⟩

noncomputable def c1run : CalcState × Except PyError Unit :=
  compute_effort_matrix c1inp initState

/-- Claim C1 counterexample: at `c1inp` the weighted service availability of
the spec, `W_{0,0} = Σ_l G_{0,l} * S_{l,0} = 1*0 + 1*0 = 0`, yet the code's
Effort Matrix entry is `1`, not `1e6`: line 67 of `social_burden.py`
transposes the list of service-level rows, so `np.dot(G, S_lm)` computes
`Σ_k G_{n,k} * S_{m,k}` (here `G_{0,0}*S_{0,0} + G_{0,1}*S_{0,1} = 1`)
instead of the documented `Σ_l G_{n,l} * S_{l,m}`. -/
theorem effort_matrix_transposed_product_bug :
    specWeightedService c1inp (c1run.1.G_matrix.getD zeroMat) 0 0 = 0
    ∧ matEntry c1run.1.E_matrix 0 0 = 1
    ∧ (1 : ℝ) ≠ 1000000 := by
  have hI0 : matEntry c1run.1.I_matrix 0 0 = 1 := by
    have hd : matEntry c1run.1.I_matrix 0 0
        = get_zero_distance_effort c1csv "t1"
          + D_entry c1inp 0 0 * get_effort_per_foot c1csv "t1" := rfl
    rw [hd]
    simp [get_zero_distance_effort, get_effort_per_foot, dictLookup, c1csv]
  have hI1 : matEntry c1run.1.I_matrix 0 1 = 1 := by
    have hd : matEntry c1run.1.I_matrix 0 1
        = get_zero_distance_effort c1csv "t2"
          + D_entry c1inp 0 1 * get_effort_per_foot c1csv "t2" := rfl
    rw [hd]
    simp [get_zero_distance_effort, get_effort_per_foot, dictLookup, c1csv]
  have hG0 : matEntry c1run.1.G_matrix 0 0 = 1 := by
    have hd : matEntry c1run.1.G_matrix 0 0
        = (if 0 < matEntry c1run.1.I_matrix 0 0
            then 1 / matEntry c1run.1.I_matrix 0 0 else 0) := rfl
    rw [hd, hI0]
    norm_num
  have hG1 : matEntry c1run.1.G_matrix 0 1 = 1 := by
    have hd : matEntry c1run.1.G_matrix 0 1
        = (if 0 < matEntry c1run.1.I_matrix 0 1
            then 1 / matEntry c1run.1.I_matrix 0 1 else 0) := rfl
    rw [hd, hI1]
    norm_num
  have hs00 : (slRowLevels c1csv (facTypeAt c1inp 0)).getD 0 0 = 0 := by
    simp [slRowLevels, dictLookup, c1csv, c1inp, facTypeAt]
  have hs10 : (slRowLevels c1csv (facTypeAt c1inp 0)).getD 1 0 = 1 := by
    simp [slRowLevels, dictLookup, c1csv, c1inp, facTypeAt]
  have hs01 : (slRowLevels c1csv (facTypeAt c1inp 1)).getD 0 0 = 0 := by
    simp [slRowLevels, dictLookup, c1csv, c1inp, facTypeAt]
  refine ⟨?_, ?_, by norm_num⟩
  · have hd : specWeightedService c1inp (c1run.1.G_matrix.getD zeroMat) 0 0
        = (0 + matEntry c1run.1.G_matrix 0 0
              * (slRowLevels c1csv (facTypeAt c1inp 0)).getD 0 0)
          + matEntry c1run.1.G_matrix 0 1
              * (slRowLevels c1csv (facTypeAt c1inp 1)).getD 0 0 := rfl
    rw [hd, hs00, hs01, hG0, hG1]
    norm_num
  · have hd : matEntry c1run.1.E_matrix 0 0
        = (if ((0 + matEntry c1run.1.G_matrix 0 0
                  * (slRowLevels c1csv (facTypeAt c1inp 0)).getD 0 0)
              + matEntry c1run.1.G_matrix 0 1
                  * (slRowLevels c1csv (facTypeAt c1inp 0)).getD 1 0) = 0
            then (1000000 : ℝ)
            else 1 / ((0 + matEntry c1run.1.G_matrix 0 0
                  * (slRowLevels c1csv (facTypeAt c1inp 0)).getD 0 0)
              + matEntry c1run.1.G_matrix 0 1
                  * (slRowLevels c1csv (facTypeAt c1inp 0)).getD 1 0)) := rfl
    rw [hd, hs00, hs10, hG0, hG1]
    norm_num

/-! ## Claim C3 — end-to-end scenario -/

/-- C3 scenario table: facility type "Library" with `J = 0.4`, `M = 0.05`,
one category "General" with service level 1. -/
def c3csv : SLCsv := ⟨["General"], [⟨"Library", 0.4, 0.05, [1]⟩]⟩

/-- C3 scenario inputs: population groups at (0,0) and (0,1) degrees, one
"Library" facility at (0,0), ability scores 2 and 1. -/
def c3inp : CalcInputs := ⟨[⟨0, 0⟩, ⟨0, 1⟩], [⟨0, 0, "Library"⟩], c3csv, [2, 1]⟩

/-- The full pipeline run on the C3 scenario from a fresh calculator. -/
noncomputable def c3run : CalcState × Except PyError NpMat :=
  compute_social_burden c3inp initState

/-- One degree of difference in the second coordinate, first coordinates both
zero: the haversine angle is exactly `π/180`. -/
lemma havDist_one_deg_lat : havDist 0 (radians 1) 0 0 = Real.pi / 180 := by
  have hpi := Real.pi_pos
  rw [radians_one]
  unfold havDist
  have h1 : ((0 : ℝ) - 0) / 2 = 0 := by norm_num
  have h2 : (Real.pi / 180 - 0) / 2 = Real.pi / 360 := by ring
  rw [h1, h2, Real.sin_zero, Real.cos_zero]
  have h3 : (0 : ℝ) ^ 2 + 1 * 1 * Real.sin (Real.pi / 360) ^ 2
      = Real.sin (Real.pi / 360) ^ 2 := by ring
  rw [h3, Real.sqrt_sq (Real.sin_nonneg_of_nonneg_of_le_pi (by linarith) (by linarith)),
    Real.arcsin_sin (by linarith) (by linarith)]
  ring

lemma c3_D0 : D_entry c3inp 0 0 = 0 := by
  simp [D_entry, c3inp, radians_zero, havDist_self]

lemma c3_D1 : D_entry c3inp 1 0 = Real.pi / 180 * 6371000 := by
  have hd : D_entry c3inp 1 0
      = havDist (radians 0) (radians 1) (radians 0) (radians 0) * 6371000 := rfl
  rw [hd, radians_zero, havDist_one_deg_lat]

lemma c3_I00 : matEntry c3run.1.I_matrix 0 0 = 0.4 := by
  have hd : matEntry c3run.1.I_matrix 0 0
      = get_zero_distance_effort c3csv "Library"
        + D_entry c3inp 0 0 * get_effort_per_foot c3csv "Library" := rfl
  rw [hd, c3_D0]
  simp [get_zero_distance_effort, get_effort_per_foot, dictLookup, c3csv]

lemma c3_I10 : matEntry c3run.1.I_matrix 1 0
    = 0.4 + Real.pi / 180 * 6371000 * 0.05 := by
  have hd : matEntry c3run.1.I_matrix 1 0
      = get_zero_distance_effort c3csv "Library"
        + D_entry c3inp 1 0 * get_effort_per_foot c3csv "Library" := rfl
  rw [hd, c3_D1]
  simp [get_zero_distance_effort, get_effort_per_foot, dictLookup, c3csv]

lemma c3_I10_lb : 5560.14 < matEntry c3run.1.I_matrix 1 0 := by
  rw [c3_I10]
  linarith [Real.pi_gt_d6]

lemma c3_I10_ub : matEntry c3run.1.I_matrix 1 0 < 5560.15 := by
  rw [c3_I10]
  linarith [Real.pi_lt_d6]

lemma c3_I10_pos : 0 < matEntry c3run.1.I_matrix 1 0 := by
  linarith [c3_I10_lb]

lemma c3_G00 : matEntry c3run.1.G_matrix 0 0 = 2.5 := by
  have hd : matEntry c3run.1.G_matrix 0 0
      = (if 0 < matEntry c3run.1.I_matrix 0 0
          then 1 / matEntry c3run.1.I_matrix 0 0 else 0) := rfl
  rw [hd, c3_I00]
  norm_num

lemma c3_G10 : matEntry c3run.1.G_matrix 1 0 = 1 / matEntry c3run.1.I_matrix 1 0 := by
  have hd : matEntry c3run.1.G_matrix 1 0
      = (if 0 < matEntry c3run.1.I_matrix 1 0
          then 1 / matEntry c3run.1.I_matrix 1 0 else 0) := rfl
  rw [hd, if_pos c3_I10_pos]

lemma c3_G10_pos : 0 < matEntry c3run.1.G_matrix 1 0 := by
  rw [c3_G10]
  exact one_div_pos.mpr c3_I10_pos

lemma c3_service_one : (slRowLevels c3csv (facTypeAt c3inp 0)).getD 0 0 = 1 := by
  simp [slRowLevels, dictLookup, c3csv, c3inp, facTypeAt]

lemma c3_E00 : matEntry c3run.1.E_matrix 0 0 = 0.4 := by
  have hd : matEntry c3run.1.E_matrix 0 0
      = (if (0 + matEntry c3run.1.G_matrix 0 0
              * (slRowLevels c3csv (facTypeAt c3inp 0)).getD 0 0) = 0 then (1000000 : ℝ)
         else 1 / (0 + matEntry c3run.1.G_matrix 0 0
              * (slRowLevels c3csv (facTypeAt c3inp 0)).getD 0 0)) := rfl
  rw [hd, c3_service_one, mul_one, zero_add, c3_G00]
  norm_num

lemma c3_E10 : matEntry c3run.1.E_matrix 1 0 = matEntry c3run.1.I_matrix 1 0 := by
  have hd : matEntry c3run.1.E_matrix 1 0
      = (if (0 + matEntry c3run.1.G_matrix 1 0
              * (slRowLevels c3csv (facTypeAt c3inp 0)).getD 0 0) = 0 then (1000000 : ℝ)
         else 1 / (0 + matEntry c3run.1.G_matrix 1 0
              * (slRowLevels c3csv (facTypeAt c3inp 0)).getD 0 0)) := rfl
  rw [hd, c3_service_one, mul_one, zero_add, if_neg (ne_of_gt c3_G10_pos), c3_G10,
    one_div_one_div]

/-- Claim C3 counterexample: the spec's expected value `E_2 ≈ 5559.77` is
wrong — the actual Effort entry of the second population group is
`I_2 = 0.4 + D*0.05 ≈ 5560.15`, more than 0.3 away from 5559.77 (far beyond
floating-point tolerance).  The spec's own listed `I` value already implies
`E_2 = I_2 ≈ 5560.15`. -/
theorem end_to_end_E2_not_5559_77 :
    0.3 < |matEntry c3run.1.E_matrix 1 0 - 5559.77| := by
  have h : 0.3 < matEntry c3run.1.E_matrix 1 0 - 5559.77 := by
    rw [c3_E10, c3_I10]
    linarith [Real.pi_gt_d6]
  exact lt_of_lt_of_le h (le_abs_self _)

/-- Claim C3 amended: the end-to-end scenario produces
`D = [0, ~111195 m]`, `I = [0.4, ~5560.15]` (i.e. `0.4 + ~5559.75`),
`G = [2.5, ~0.00018]`, `W = G` (per entry), `E = [0.4, ~5560.15]` and
`B = [0.2, E_2]` — the only correction to the claim being that
`E_2 = B_2 = I_2 ≈ 5560.15`, not `~5559.77`. -/
theorem end_to_end_scenario_values :
    D_entry c3inp 0 0 = 0
    ∧ |D_entry c3inp 1 0 - 111195| ≤ 0.5
    ∧ matEntry c3run.1.I_matrix 0 0 = 0.4
    ∧ |matEntry c3run.1.I_matrix 1 0 - (0.4 + 5559.75)| ≤ 0.01
    ∧ matEntry c3run.1.G_matrix 0 0 = 2.5
    ∧ |matEntry c3run.1.G_matrix 1 0 - 0.00018| ≤ 0.000001
    ∧ specWeightedService c3inp (c3run.1.G_matrix.getD zeroMat) 0 0
        = matEntry c3run.1.G_matrix 0 0
    ∧ specWeightedService c3inp (c3run.1.G_matrix.getD zeroMat) 1 0
        = matEntry c3run.1.G_matrix 1 0
    ∧ matEntry c3run.1.E_matrix 0 0 = 0.4
    ∧ |matEntry c3run.1.E_matrix 1 0 - 5560.15| ≤ 0.01
    ∧ npEntry c3run.2 0 0 = NpVal.fin 0.2
    ∧ npEntry c3run.2 1 0 = NpVal.fin (matEntry c3run.1.E_matrix 1 0) := by
  refine ⟨c3_D0, ?_, c3_I00, ?_, c3_G00, ?_, ?_, ?_, c3_E00, ?_, ?_, ?_⟩
  · rw [c3_D1, abs_le]
    constructor <;> linarith [Real.pi_gt_d6, Real.pi_lt_d6]
  · rw [c3_I10, abs_le]
    constructor <;> linarith [Real.pi_gt_d6, Real.pi_lt_d6]
  · rw [c3_G10, abs_le]
    have hpos := c3_I10_pos
    have hmul : 1 / matEntry c3run.1.I_matrix 1 0 * matEntry c3run.1.I_matrix 1 0 = 1 :=
      one_div_mul_cancel (ne_of_gt hpos)
    have hgpos : 0 < 1 / matEntry c3run.1.I_matrix 1 0 := one_div_pos.mpr hpos
    constructor <;> nlinarith [hmul, hgpos, c3_I10_lb, c3_I10_ub]
  · have hd : specWeightedService c3inp (c3run.1.G_matrix.getD zeroMat) 0 0
        = 0 + matEntry c3run.1.G_matrix 0 0
            * (slRowLevels c3csv (facTypeAt c3inp 0)).getD 0 0 := rfl
    rw [hd, c3_service_one, mul_one, zero_add]
  · have hd : specWeightedService c3inp (c3run.1.G_matrix.getD zeroMat) 1 0
        = 0 + matEntry c3run.1.G_matrix 1 0
            * (slRowLevels c3csv (facTypeAt c3inp 0)).getD 0 0 := rfl
    rw [hd, c3_service_one, mul_one, zero_add]
  · rw [c3_E10, c3_I10, abs_le]
    constructor <;> linarith [Real.pi_gt_d6, Real.pi_lt_d6]
  · have hd : npEntry c3run.2 0 0 = npDiv (matEntry c3run.1.E_matrix 0 0) 2 := rfl
    rw [hd, c3_E00]
    norm_num [npDiv]
  · have hd : npEntry c3run.2 1 0 = npDiv (matEntry c3run.1.E_matrix 1 0) 1 := rfl
    rw [hd]
    norm_num [npDiv]

end SocialBurden
